import Mathlib

/-!
Shallow embedding of `autogen/coding/vagrant_commandline_code_executor.py`
(`VagrantCommandLineCodeExecutor`) and of the lifecycle helpers it defines.

External collaborators that the executor merely calls (the `silence_pip`
normalizer, `_get_file_name_from_content`, the `md5` hex digest, the `_cmd`
interpreter table, and the fabric `run` remote invocation) are modelled as
parameters bundled in `Externals`; the executor's own control flow, tables
and string manipulation are translated line by line from the source.
Side effects (file writes, uploads, remote commands) are recorded as
explicit event lists in `BatchState`.
-/

namespace VagrantExec

/-- Model of Python's `str.lower()` (per-character basic-latin lowering). -/
def pyLower (s : String) : String := String.mk (s.data.map Char.toLower)

/-- Model of Python's `output[-200:]` slice: the last `n` characters. -/
def pyTail (n : Nat) (s : String) : String := String.mk (s.data.drop (s.data.length - n))

/-- Source: `DEFAULT_EXECUTION_POLICY` class table (lines 43-54). -/
def DEFAULT_EXECUTION_POLICY : List (String × Bool) :=
  [("bash", true), ("shell", true), ("sh", true), ("pwsh", true),
   ("powershell", false), ("ps1", true), ("python", true),
   ("javascript", true), ("html", false), ("css", false)]

/-- Source: `LANGUAGE_ALIASES` class table (line 55). -/
def LANGUAGE_ALIASES : List (String × String) :=
  [("py", "python"), ("js", "javascript")]

/-- Source line 196:
`self.LANGUAGE_ALIASES.get(code_block.language.lower(), code_block.language.lower())`. -/
def canonical_lang (language : String) : String :=
  (LANGUAGE_ALIASES.lookup (pyLower language)).getD (pyLower language)

/-- A code block as supplied by the caller: `{language, code}`. -/
structure CodeBlock where
  language : String
  code : String
deriving DecidableEq

/-- Result record `CommandLineCodeResult(exit_code=..., output=..., code_file=...)` (line 245). -/
structure CommandLineCodeResult where
  exit_code : Int
  output : String
  code_file : Option String
deriving DecidableEq

/-- The collaborators the executor calls but does not define:
  * `silence_pip code lang` — the pip-silencing normalization (`.utils`),
  * `get_file_name_from_content code workDir` — the embedded-filename
    resolver (`.utils`); `.error ()` models the `ValueError` it raises when
    the directive escapes the workspace, `.ok none` models "no directive",
  * `md5hex code` — `md5(code.encode()).hexdigest()`,
  * `cmd lang` — `_cmd(lang)` from `..code_utils`,
  * `run command` — fabric's `run`, returning the captured output string
    together with the remote return code (which the source never reads). -/
structure Externals where
  silence_pip : String → String → String
  get_file_name_from_content : String → String → Except Unit (Option String)
  md5hex : String → String
  cmd : String → String
  run : String → String × Int

/-- Configuration captured by `__init__`: `self._timeout`, `self._work_dir`,
`self.execution_policies` (the merged policy table, as a finite map). -/
structure ExecutorConfig where
  timeout : Int
  work_dir : String
  execution_policies : String → Option Bool

/-- Lines 155-157: `self.execution_policies = self.DEFAULT_EXECUTION_POLICY.copy()`
then `.update(execution_policies)` when overrides are given.  Python `dict`
update semantics: the override value wins per key, keys absent from the
override fall back to the default table. -/
def mkExecutionPolicies (overrides : Option (String → Option Bool)) : String → Option Bool :=
  fun k =>
    match overrides with
    | none => DEFAULT_EXECUTION_POLICY.lookup k
    | some ov =>
      match ov k with
      | some v => some v
      | none => DEFAULT_EXECUTION_POLICY.lookup k

/-- Lines 99-100 and 152-157 of `__init__`: reject `timeout < 1`
(`ValueError`), otherwise record timeout, working directory and the merged
execution-policy table. -/
def mkExecutor (timeout : Int) (work_dir : String)
    (overrides : Option (String → Option Bool)) : Except String ExecutorConfig :=
  if timeout < 1 then .error "Timeout must be greater than or equal to 1."
  else .ok { timeout := timeout, work_dir := work_dir,
             execution_policies := mkExecutionPolicies overrides }

/-- An interaction with the remote transport: a file upload (`put`) or a
remote command invocation (`run`). -/
inductive TransportEvent where
  | put (local_path : String) (remote_dest : String)
  | runCmd (command : String)
deriving DecidableEq

/-- The loop state of `execute_code_blocks`: `outputs`, `files`,
`last_exit_code`, plus explicit event logs for local file writes
(path, content) and remote-transport calls. -/
structure BatchState where
  outputs : List String
  files : List String
  writes : List (String × String)
  transport : List TransportEvent
  last_exit_code : Int
deriving DecidableEq

/-- Initial loop state (lines 192-194). -/
def initState : BatchState :=
  { outputs := [], files := [], writes := [], transport := [], last_exit_code := 0 }

/-- Whether one loop iteration falls through to the next block (`cont`,
Python `continue` / loop end) or leaves the loop (`halt`, Python `break`). -/
inductive StepOutcome where
  | cont (s : BatchState)
  | halt (s : BatchState)
deriving DecidableEq

/-- Line 214: `f"tmp_code_{md5(code.encode()).hexdigest()}.{lang}"`. -/
def fallback_filename (ext : Externals) (code lang : String) : String :=
  "tmp_code_" ++ ext.md5hex code ++ "." ++ lang

/-- One iteration of the `for code_block in code_blocks` loop
(lines 195-241), translated clause by clause:
canonicalize the language; fail fast on a language outside
`DEFAULT_EXECUTION_POLICY`; normalize the code with `silence_pip`; resolve
the filename (a resolver `ValueError` appends an error message and breaks);
fall back to the content-hash name when no directive names a file; write the
file; for non-executed languages append a "saved" message and continue;
otherwise upload, run `timeout <T> <cmd> <file>` remotely, and append the
last 200 characters of the captured output.  The live source never updates
`last_exit_code` from the remote call. -/
def stepBlock (ext : Externals) (cfg : ExecutorConfig) (code_block : CodeBlock)
    (s : BatchState) : StepOutcome :=
  let lang := canonical_lang code_block.language
  if (DEFAULT_EXECUTION_POLICY.lookup lang).isNone then
    .halt { s with outputs := s.outputs ++ ["Unsupported language " ++ lang ++ "\n"],
                   last_exit_code := 1 }
  else
    let execute_code := (cfg.execution_policies lang).getD false
    let code := ext.silence_pip code_block.code lang
    match ext.get_file_name_from_content code cfg.work_dir with
    | .error _ =>
      .halt { s with outputs := s.outputs ++ ["Filename is not in the workspace"],
                     last_exit_code := 1 }
    | .ok name? =>
      let filename :=
        match name? with
        | some f => if f = "" then fallback_filename ext code lang else f
        | none => fallback_filename ext code lang
      let code_path := cfg.work_dir ++ "/" ++ filename
      let s := { s with writes := s.writes ++ [(code_path, code)],
                        files := s.files ++ [code_path] }
      if !execute_code then
        .cont { s with outputs := s.outputs ++ ["Code saved to " ++ code_path ++ "\n"] }
      else
        let command := "timeout " ++ toString cfg.timeout ++ " " ++ ext.cmd lang
          ++ " " ++ filename
        let output := (ext.run command).1
        .cont { s with
          transport := s.transport ++ [.put code_path "/home/vagrant", .runCmd command],
          outputs := s.outputs ++ [pyTail 200 output] }

/-- The whole loop of lines 195-241. -/
def processBlocks (ext : Externals) (cfg : ExecutorConfig) :
    List CodeBlock → BatchState → BatchState
  | [], s => s
  | b :: rest, s =>
    match stepBlock ext cfg b s with
    | .cont s' => processBlocks ext cfg rest s'
    | .halt s' => s'

/-- Function `execute_code_blocks` (lines 179-245): raise `ValueError` on an empty
batch, otherwise run the loop and assemble
`CommandLineCodeResult(exit_code=last_exit_code, output="".join(outputs),
code_file=str(files[0]) if files else None)`.  The final `BatchState` is
returned alongside so that the recorded side effects stay observable. -/
def execute_code_blocks (ext : Externals) (cfg : ExecutorConfig)
    (code_blocks : List CodeBlock) :
    Except String (CommandLineCodeResult × BatchState) :=
  if code_blocks.length = 0 then .error "No code blocks to execute."
  else
    let s := processBlocks ext cfg code_blocks initState
    .ok ({ exit_code := s.last_exit_code,
           output := String.join s.outputs,
           code_file := s.files.head? }, s)

/-- The language of `code_block` appears in the default policy table
(the test of line 197 succeeds). -/
def supported (b : CodeBlock) : Bool :=
  (DEFAULT_EXECUTION_POLICY.lookup (canonical_lang b.language)).isSome

/-- The normalized code of the block (line 203). -/
def blockContent (ext : Externals) (b : CodeBlock) : String :=
  ext.silence_pip b.code (canonical_lang b.language)

/-- The filename resolver returns without raising on this block. -/
def resolverOk (ext : Externals) (cfg : ExecutorConfig) (b : CodeBlock) : Bool :=
  match ext.get_file_name_from_content (blockContent ext b) cfg.work_dir with
  | .ok _ => true
  | .error _ => false

/-- A block that does not stop the loop: supported language and a
non-raising filename resolution. -/
def clean (ext : Externals) (cfg : ExecutorConfig) (b : CodeBlock) : Bool :=
  supported b && resolverOk ext cfg b

/-- The filename chosen for a clean block (lines 207-214). -/
def blockFilename (ext : Externals) (cfg : ExecutorConfig) (b : CodeBlock) : String :=
  match ext.get_file_name_from_content (blockContent ext b) cfg.work_dir with
  | .ok (some f) =>
    if f = "" then fallback_filename ext (blockContent ext b) (canonical_lang b.language)
    else f
  | .ok none => fallback_filename ext (blockContent ext b) (canonical_lang b.language)
  | .error _ => ""

/-- The local path the block is persisted to (line 216). -/
def blockPath (ext : Externals) (cfg : ExecutorConfig) (b : CodeBlock) : String :=
  cfg.work_dir ++ "/" ++ blockFilename ext cfg b

/-- The resolved execute/persist decision for the block (line 202). -/
def blockExecutes (cfg : ExecutorConfig) (b : CodeBlock) : Bool :=
  (cfg.execution_policies (canonical_lang b.language)).getD false

/-- The remote command line built for an executed block (lines 225, 240). -/
def blockCommand (ext : Externals) (cfg : ExecutorConfig) (b : CodeBlock) : String :=
  "timeout " ++ toString cfg.timeout ++ " " ++ ext.cmd (canonical_lang b.language)
    ++ " " ++ blockFilename ext cfg b

/-- The output fragment a clean block appends (line 222 or line 241). -/
def blockMsg (ext : Externals) (cfg : ExecutorConfig) (b : CodeBlock) : String :=
  if blockExecutes cfg b then pyTail 200 (ext.run (blockCommand ext cfg b)).1
  else "Code saved to " ++ blockPath ext cfg b ++ "\n"

/-- The transport interactions a clean block performs (lines 238-240). -/
def blockTransport (ext : Externals) (cfg : ExecutorConfig) (b : CodeBlock) :
    List TransportEvent :=
  if blockExecutes cfg b then
    [.put (blockPath ext cfg b) "/home/vagrant", .runCmd (blockCommand ext cfg b)]
  else []

/-- The loop state after a list of clean blocks: every per-block
contribution is appended, `last_exit_code` is untouched. -/
def accumClean (ext : Externals) (cfg : ExecutorConfig) (pre : List CodeBlock)
    (s : BatchState) : BatchState :=
  { outputs := s.outputs ++ pre.map (blockMsg ext cfg),
    files := s.files ++ pre.map (blockPath ext cfg),
    writes := s.writes ++ pre.map (fun b => (blockPath ext cfg b, blockContent ext b)),
    transport := s.transport ++ (pre.map (blockTransport ext cfg)).flatten,
    last_exit_code := s.last_exit_code }

/-- Modelled from the spec: the canonicalization order the spec describes,
"first applies alias substitution, then lowercases", as opposed to the
source's lowercase-then-alias order in `canonical_lang`. -/
def canonical_lang_alias_first (language : String) : String :=
  pyLower ((LANGUAGE_ALIASES.lookup language).getD language)

/-- Observable teardown effects: how many times the environment's
`destroy()` and the `atexit.unregister` deregistration have been issued.
The `atexit.register` call of the source is commented out, so no exit hook
ever fires; only explicit `stop()` / `__exit__` reach `cleanup`. -/
structure LifecycleTrace where
  destroys : Nat
  unregisters : Nat
deriving DecidableEq

/-- Lines 139-141: `cleanup` destroys the environment and deregisters the
(never-registered) exit hook, unconditionally on every call. -/
def cleanup (t : LifecycleTrace) : LifecycleTrace :=
  { destroys := t.destroys + 1, unregisters := t.unregisters + 1 }

/-- Lines 253-255: `stop` simply invokes `self._cleanup()`. -/
def stop (t : LifecycleTrace) : LifecycleTrace := cleanup t

/-- The content seen at `path` after a sequence of writes, last write wins
(Python `open(..., "w")` truncates and overwrites). -/
def finalContents (writes : List (String × String)) (path : String) : Option String :=
  (writes.filterMap (fun w => if w.1 = path then some w.2 else none)).getLast?

/-- Test-double collaborators: identity normalization, no filename
directive, a length stand-in for the external md5 digest, and a remote
`run` that reports output "boom" with exit code 2 on every command. -/
def extRemoteFails : Externals :=
  { silence_pip := fun c _ => c,
    get_file_name_from_content := fun _ _ => .ok none,
    md5hex := fun c => toString c.length,
    cmd := fun l => l,
    run := fun _ => ("boom", 2) }

/-- Test-double collaborators whose remote `run` reports exit code 124,
the status `timeout(1)` yields when it kills the command. -/
def extRemoteTimesOut : Externals :=
  { silence_pip := fun c _ => c,
    get_file_name_from_content := fun _ _ => .ok none,
    md5hex := fun c => toString c.length,
    cmd := fun l => l,
    run := fun _ => ("killed after partial run", 124) }

/-- Test-double collaborators used by witnesses: one filename directive is
refused (`ValueError`), the code "pip install a"/"pip install b" both
normalize to the same silenced text. -/
def extWitness : Externals :=
  { silence_pip := fun c _ => if c = "pip install a" ∨ c = "pip install b" then "# pip silenced" else c,
    get_file_name_from_content := fun c _ => if c = "# filename: /etc/passwd" then .error () else .ok none,
    md5hex := fun c => toString c.length,
    cmd := fun l => l,
    run := fun _ => ("ok", 0) }

/-- A default-policy configuration with timeout 60 and workdir "wd". -/
def cfg60 : ExecutorConfig :=
  { timeout := 60, work_dir := "wd", execution_policies := mkExecutionPolicies none }

/-- A caller override table: adds the unknown language "ruby" and flips
"python" to persist-only. -/
def ovRuby : String → Option Bool :=
  fun k => if k = "ruby" then some true else if k = "python" then some false else none

/-- Configuration `cfg60` with the `ovRuby` overrides merged in. -/
def cfgOv : ExecutorConfig :=
  { timeout := 60, work_dir := "wd", execution_policies := mkExecutionPolicies (some ovRuby) }

theorem processBlocks_cons_cont (ext : Externals) (cfg : ExecutorConfig)
    (b : CodeBlock) (rest : List CodeBlock) (s s' : BatchState)
    (h : stepBlock ext cfg b s = .cont s') :
    processBlocks ext cfg (b :: rest) s = processBlocks ext cfg rest s' := by
  rw [processBlocks, h]

theorem processBlocks_cons_halt (ext : Externals) (cfg : ExecutorConfig)
    (b : CodeBlock) (rest : List CodeBlock) (s s' : BatchState)
    (h : stepBlock ext cfg b s = .halt s') :
    processBlocks ext cfg (b :: rest) s = s' := by
  rw [processBlocks, h]

theorem stepBlock_clean (ext : Externals) (cfg : ExecutorConfig) (b : CodeBlock)
    (s : BatchState) (h : clean ext cfg b = true) :
    stepBlock ext cfg b s = .cont
      { outputs := s.outputs ++ [blockMsg ext cfg b],
        files := s.files ++ [blockPath ext cfg b],
        writes := s.writes ++ [(blockPath ext cfg b, blockContent ext b)],
        transport := s.transport ++ blockTransport ext cfg b,
        last_exit_code := s.last_exit_code } := by
  rw [clean, Bool.and_eq_true] at h
  obtain ⟨hsup, hres⟩ := h
  rw [supported, Option.isSome_iff_exists] at hsup
  obtain ⟨v, hv⟩ := hsup
  rw [resolverOk] at hres
  cases hname : ext.get_file_name_from_content (blockContent ext b) cfg.work_dir with
  | error e => rw [hname] at hres; simp at hres
  | ok name? =>
    rw [blockContent] at hname
    have hfn : blockFilename ext cfg b =
        (match name? with
          | some f => if f = "" then
              fallback_filename ext (ext.silence_pip b.code (canonical_lang b.language))
                (canonical_lang b.language)
            else f
          | none => fallback_filename ext (ext.silence_pip b.code (canonical_lang b.language))
              (canonical_lang b.language)) := by
      rw [blockFilename, blockContent]
      simp only [hname]
      cases name? <;> rfl
    by_cases hex : blockExecutes cfg b
    · rw [blockExecutes] at hex
      simp only [stepBlock, hv, Option.isNone_some, Bool.false_eq_true, if_false,
        hname, hex, Bool.not_true, Bool.false_eq_true, if_false]
      simp only [blockMsg, blockTransport, blockCommand, blockPath, blockContent,
        blockExecutes, hex, if_true, hfn]
      cases name? <;> simp
    · rw [blockExecutes, Bool.not_eq_true] at hex
      simp only [stepBlock, hv, Option.isNone_some, Bool.false_eq_true, if_false,
        hname, hex, Bool.not_false, if_true]
      simp only [blockMsg, blockTransport, blockPath, blockContent,
        blockExecutes, hex, Bool.false_eq_true, if_false, hfn]
      cases name? <;> simp

theorem processBlocks_clean_pre (ext : Externals) (cfg : ExecutorConfig)
    (pre rest : List CodeBlock) (s : BatchState)
    (h : ∀ b ∈ pre, clean ext cfg b = true) :
    processBlocks ext cfg (pre ++ rest) s =
      processBlocks ext cfg rest (accumClean ext cfg pre s) := by
  induction pre generalizing s with
  | nil => simp [accumClean]
  | cons b pre ih =>
    have hb : clean ext cfg b = true := h b (List.mem_cons_self b pre)
    have hpre : ∀ x ∈ pre, clean ext cfg x = true :=
      fun x hx => h x (List.mem_cons_of_mem b hx)
    rw [List.cons_append,
      processBlocks_cons_cont ext cfg b _ _ _ (stepBlock_clean ext cfg b s hb),
      ih _ hpre]
    congr 1
    simp [accumClean, List.append_assoc]

theorem stepBlock_unsupported (ext : Externals) (cfg : ExecutorConfig)
    (b : CodeBlock) (s : BatchState)
    (h : List.lookup (canonical_lang b.language) DEFAULT_EXECUTION_POLICY = none) :
    stepBlock ext cfg b s = .halt
      { s with
        outputs := s.outputs ++ ["Unsupported language " ++ canonical_lang b.language ++ "\n"],
        last_exit_code := 1 } := by
  simp only [stepBlock, h, Option.isNone_none, if_true]

theorem stepBlock_bad_filename (ext : Externals) (cfg : ExecutorConfig)
    (b : CodeBlock) (s : BatchState)
    (h1 : supported b = true)
    (h2 : ext.get_file_name_from_content (blockContent ext b) cfg.work_dir = .error ()) :
    stepBlock ext cfg b s = .halt
      { s with
        outputs := s.outputs ++ ["Filename is not in the workspace"],
        last_exit_code := 1 } := by
  rw [supported, Option.isSome_iff_exists] at h1
  obtain ⟨v, hv⟩ := h1
  rw [blockContent] at h2
  simp only [stepBlock, hv, Option.isNone_some, Bool.false_eq_true, if_false, h2]

theorem char_toNat_ofNat_of_lt {n : Nat} (h : n < 0xd800) :
    (Char.ofNat n).toNat = n := by
  rw [Char.ofNat, dif_pos (Or.inl h : n.isValidChar)]
  rfl

theorem char_toLower_idem (c : Char) : c.toLower.toLower = c.toLower := by
  by_cases h : c.toNat ≥ 65 ∧ c.toNat ≤ 90
  · have h1 : c.toLower = Char.ofNat (c.toNat + 32) := by
      simp only [Char.toLower]
      rw [if_pos h]
    have h2 : (Char.ofNat (c.toNat + 32)).toNat = c.toNat + 32 :=
      char_toNat_ofNat_of_lt (by omega)
    rw [h1]
    simp only [Char.toLower, h2]
    rw [if_neg (by omega)]
  · have h1 : c.toLower = c := by
      simp only [Char.toLower]
      rw [if_neg h]
    rw [h1, h1]

theorem pyLower_idem (s : String) : pyLower (pyLower s) = pyLower s := by
  show String.mk ((s.data.map Char.toLower).map Char.toLower)
      = String.mk (s.data.map Char.toLower)
  congr 1
  rw [List.map_map]
  exact List.map_congr_left (fun c _ => char_toLower_idem c)

theorem alias_values_lower (k v : String)
    (h : LANGUAGE_ALIASES.lookup k = some v) : pyLower v = v := by
  by_cases h1 : k = "py"
  · rw [h1] at h
    simp [LANGUAGE_ALIASES, List.lookup] at h
    rw [← h]
    decide
  · by_cases h2 : k = "js"
    · rw [h2] at h
      simp [LANGUAGE_ALIASES, List.lookup] at h
      rw [← h]
      decide
    · have e1 : (k == "py") = false := by simp [h1]
      have e2 : (k == "js") = false := by simp [h2]
      rw [LANGUAGE_ALIASES] at h
      simp [List.lookup, e1, e2] at h

/-- C6 (counterexample): the claim says canonicalization first applies
alias substitution and then lowercases; at input "PY" the source's
canonicalization (lowercase, then alias) yields "python" — a supported
language — while the claimed alias-first order would yield "py", which is
not in the default policy table. -/
theorem C6_counterexample_PY :
    canonical_lang "PY" = "python" ∧
    canonical_lang_alias_first "PY" = "py" ∧
    canonical_lang "PY" ≠ canonical_lang_alias_first "PY" ∧
    (List.lookup (canonical_lang "PY") DEFAULT_EXECUTION_POLICY).isSome = true ∧
    List.lookup (canonical_lang_alias_first "PY") DEFAULT_EXECUTION_POLICY = none := by
  decide

/-- C6 (amended): canonicalization first lowercases the input and then
applies alias substitution before the policy-table lookup; equivalently,
the source's canonicalization coincides with the spec's alias-then-lowercase
rule applied to the lowercased language identifier. -/
theorem C6_canonicalization_lowercases_first (L : String) :
    canonical_lang L = canonical_lang_alias_first (pyLower L) := by
  rw [canonical_lang, canonical_lang_alias_first]
  cases h : LANGUAGE_ALIASES.lookup (pyLower L) with
  | none => simp only [h, Option.getD_none, pyLower_idem]
  | some v => simp only [h, Option.getD_some, alias_values_lower (pyLower L) v h]

/-- C9 (counterexample): calling `stop` twice is observably different from
calling it once — starting from a fresh trace, two calls issue two
`destroy` operations where one call issues one. -/
theorem C9_counterexample_double_destroy :
    stop (stop ⟨0, 0⟩) ≠ stop ⟨0, 0⟩ ∧
    (stop (stop ⟨0, 0⟩)).destroys = 2 ∧
    (stop ⟨0, 0⟩).destroys = 1 := by
  decide

/-- C9 (amended): `stop` unconditionally routes to `cleanup`, which issues
one `destroy` (and one no-op `atexit.unregister`, the hook never having
been registered) on every call: a second `stop` is not a no-op, and two
calls issue exactly two destroys. -/
theorem C9_stop_destroys_every_call (t : LifecycleTrace) :
    stop t = { destroys := t.destroys + 1, unregisters := t.unregisters + 1 } ∧
    stop (stop t) = { destroys := t.destroys + 2, unregisters := t.unregisters + 2 } := by
  exact ⟨rfl, rfl⟩

/-- C1 (code evaluated at the failing input): with a remote transport whose
every command reports exit code 2, a two-block python batch is processed to
the end — the second block is still executed and persisted — and the
returned exit code is 0, because the live source never reads the remote
return code (the fail-fast lines of the docker variant are commented out). -/
theorem C1_remote_failure_never_observed :
    (extRemoteFails.run "timeout 60 python tmp_code_1.python").2 = 2 ∧
    execute_code_blocks extRemoteFails cfg60
        [{ language := "python", code := "a" }, { language := "python", code := "bb" }] =
      .ok ({ exit_code := 0, output := "boomboom",
             code_file := some "wd/tmp_code_1.python" },
           { outputs := ["boom", "boom"],
             files := ["wd/tmp_code_1.python", "wd/tmp_code_2.python"],
             writes := [("wd/tmp_code_1.python", "a"), ("wd/tmp_code_2.python", "bb")],
             transport := [.put "wd/tmp_code_1.python" "/home/vagrant",
                           .runCmd "timeout 60 python tmp_code_1.python",
                           .put "wd/tmp_code_2.python" "/home/vagrant",
                           .runCmd "timeout 60 python tmp_code_2.python"],
             last_exit_code := 0 }) := by
  exact ⟨rfl, rfl⟩

/-- C3 (code evaluated at the failing input): the remote command is wrapped
in `timeout 60`, and when the remote side reports the timeout sentinel 124,
the live source records neither the sentinel nor any timeout marker: the
result's exit code stays 0 and its output is exactly the truncated remote
output. -/
theorem C3_timeout_not_surfaced :
    (extRemoteTimesOut.run "timeout 60 python tmp_code_1.python").2 = 124 ∧
    execute_code_blocks extRemoteTimesOut cfg60
        [{ language := "python", code := "a" }] =
      .ok ({ exit_code := 0, output := "killed after partial run",
             code_file := some "wd/tmp_code_1.python" },
           { outputs := ["killed after partial run"],
             files := ["wd/tmp_code_1.python"],
             writes := [("wd/tmp_code_1.python", "a")],
             transport := [.put "wd/tmp_code_1.python" "/home/vagrant",
                           .runCmd "timeout 60 python tmp_code_1.python"],
             last_exit_code := 0 }) ∧
    (0 : Int) ≠ 124 := by
  refine ⟨rfl, rfl, by decide⟩

/-- C2: when every block before position i runs without stopping the loop
and block i's language is unsupported, the batch result's output is exactly
the in-order concatenation of the per-block messages of blocks 1..i-1
followed by the "Unsupported language" message for block i, the exit code is
the sentinel 1, and no file is written for block i or any later block. -/
theorem C2_unsupported_stops_batch (ext : Externals) (cfg : ExecutorConfig)
    (pre post : List CodeBlock) (b : CodeBlock)
    (hpre : ∀ x ∈ pre, clean ext cfg x = true)
    (hb : List.lookup (canonical_lang b.language) DEFAULT_EXECUTION_POLICY = none) :
    execute_code_blocks ext cfg (pre ++ b :: post) =
      .ok ({ exit_code := 1,
             output := String.join (pre.map (blockMsg ext cfg) ++
               ["Unsupported language " ++ canonical_lang b.language ++ "\n"]),
             code_file := (pre.map (blockPath ext cfg)).head? },
           { outputs := pre.map (blockMsg ext cfg) ++
               ["Unsupported language " ++ canonical_lang b.language ++ "\n"],
             files := pre.map (blockPath ext cfg),
             writes := pre.map (fun x => (blockPath ext cfg x, blockContent ext x)),
             transport := (pre.map (blockTransport ext cfg)).flatten,
             last_exit_code := 1 }) := by
  have hne : ¬((pre ++ b :: post).length = 0) := by simp
  simp only [execute_code_blocks]
  rw [if_neg hne,
    processBlocks_clean_pre ext cfg pre (b :: post) initState hpre,
    processBlocks_cons_halt ext cfg b post _ _
      (stepBlock_unsupported ext cfg b _ hb)]
  simp [accumClean, initState]

/-- C2 witness: html block saved, ruby block unsupported, python block
never reached and never persisted. -/
theorem C2_witness :
    execute_code_blocks extWitness cfg60
        [{ language := "html", code := "x" }, { language := "ruby", code := "y" },
         { language := "python", code := "z" }] =
      .ok ({ exit_code := 1,
             output := "Code saved to wd/tmp_code_1.html\nUnsupported language ruby\n",
             code_file := some "wd/tmp_code_1.html" },
           { outputs := ["Code saved to wd/tmp_code_1.html\n", "Unsupported language ruby\n"],
             files := ["wd/tmp_code_1.html"],
             writes := [("wd/tmp_code_1.html", "x")],
             transport := [],
             last_exit_code := 1 }) := by
  exact C2_unsupported_stops_batch extWitness cfg60
    [{ language := "html", code := "x" }] [{ language := "python", code := "z" }]
    { language := "ruby", code := "y" } (by decide) (by decide)

/-- C4: a language whose canonical form is absent from the default policy
table is unsupported no matter what the caller's override table says, while
for a language present in the default table the resolved execute decision
is the override value when one is given and the default value otherwise. -/
theorem C4_unsupported_regardless_of_overrides (ext : Externals)
    (ov : String → Option Bool) (t : Int) (wd : String)
    (b : CodeBlock) (s : BatchState) (L2 : String) (d : Bool)
    (h : List.lookup (canonical_lang b.language) DEFAULT_EXECUTION_POLICY = none)
    (hL2 : List.lookup L2 DEFAULT_EXECUTION_POLICY = some d) :
    stepBlock ext
        { timeout := t, work_dir := wd,
          execution_policies := mkExecutionPolicies (some ov) } b s =
      .halt { s with
        outputs := s.outputs ++ ["Unsupported language " ++ canonical_lang b.language ++ "\n"],
        last_exit_code := 1 } ∧
    mkExecutionPolicies (some ov) L2 = some ((ov L2).getD d) := by
  refine ⟨stepBlock_unsupported _ _ _ _ h, ?_⟩
  rw [mkExecutionPolicies]
  cases hov : ov L2 <;> simp [hov, hL2]

/-- C4 witness: an override adding "ruby" does not make ruby supported,
while the same override flips "python" from execute to persist-only. -/
theorem C4_witness :
    stepBlock extWitness cfgOv { language := "ruby", code := "y" } initState =
      .halt { outputs := ["Unsupported language ruby\n"], files := [], writes := [],
              transport := [], last_exit_code := 1 } ∧
    mkExecutionPolicies (some ovRuby) "python" = some false := by
  exact C4_unsupported_regardless_of_overrides extWitness ovRuby 60 "wd"
    { language := "ruby", code := "y" } initState "python" true (by decide) (by decide)

/-- C5: the fallback filename is `tmp_code_<digest>.<lang>`, resolving it
twice for the same code and language yields the identical name, and two
codes whose digests differ yield different names (difference up to a
collision of the content digest). -/
theorem C5_fallback_filename_deterministic (ext : Externals) (c1 c2 L : String)
    (h : ext.md5hex c1 ≠ ext.md5hex c2) :
    fallback_filename ext c1 L = "tmp_code_" ++ ext.md5hex c1 ++ "." ++ L ∧
    fallback_filename ext c1 L = fallback_filename ext c1 L ∧
    fallback_filename ext c1 L ≠ fallback_filename ext c2 L := by
  refine ⟨rfl, rfl, fun he => h ?_⟩
  rw [fallback_filename, fallback_filename] at he
  have hd := congrArg String.data he
  simp only [String.data_append, List.append_assoc] at hd
  have h1 := List.append_cancel_left hd
  have h2 := List.append_cancel_right h1
  exact congrArg String.mk h2

/-- C5 witness at two codes with distinct digests. -/
theorem C5_witness :
    fallback_filename extWitness "a" "python" =
      "tmp_code_" ++ extWitness.md5hex "a" ++ "." ++ "python" ∧
    fallback_filename extWitness "a" "python" = fallback_filename extWitness "a" "python" ∧
    fallback_filename extWitness "a" "python" ≠ fallback_filename extWitness "bb" "python" := by
  exact C5_fallback_filename_deterministic extWitness "a" "bb" "python" (by decide)

/-- C7: a block whose filename directive is rejected by the resolver (the
`ValueError` of `_get_file_name_from_content`) does not raise to the
caller: the batch result is still returned, with the error message appended
after the earlier blocks' messages, exit code 1, and no file persisted for
the offending block or any later block. -/
theorem C7_invalid_directive_reported_in_result (ext : Externals)
    (cfg : ExecutorConfig) (pre post : List CodeBlock) (b : CodeBlock)
    (hpre : ∀ x ∈ pre, clean ext cfg x = true)
    (hsup : supported b = true)
    (herr : ext.get_file_name_from_content (blockContent ext b) cfg.work_dir = .error ()) :
    execute_code_blocks ext cfg (pre ++ b :: post) =
      .ok ({ exit_code := 1,
             output := String.join (pre.map (blockMsg ext cfg) ++
               ["Filename is not in the workspace"]),
             code_file := (pre.map (blockPath ext cfg)).head? },
           { outputs := pre.map (blockMsg ext cfg) ++ ["Filename is not in the workspace"],
             files := pre.map (blockPath ext cfg),
             writes := pre.map (fun x => (blockPath ext cfg x, blockContent ext x)),
             transport := (pre.map (blockTransport ext cfg)).flatten,
             last_exit_code := 1 }) := by
  have hne : ¬((pre ++ b :: post).length = 0) := by simp
  simp only [execute_code_blocks]
  rw [if_neg hne,
    processBlocks_clean_pre ext cfg pre (b :: post) initState hpre,
    processBlocks_cons_halt ext cfg b post _ _
      (stepBlock_bad_filename ext cfg b _ hsup herr)]
  simp [accumClean, initState]

/-- C7 witness: the directive-refusing block stops a batch without an
exception, and the trailing python block is never persisted. -/
theorem C7_witness :
    execute_code_blocks extWitness cfg60
        [{ language := "python", code := "# filename: /etc/passwd" },
         { language := "python", code := "z" }] =
      .ok ({ exit_code := 1, output := "Filename is not in the workspace",
             code_file := none },
           { outputs := ["Filename is not in the workspace"],
             files := [], writes := [], transport := [],
             last_exit_code := 1 }) := by
  exact C7_invalid_directive_reported_in_result extWitness cfg60 []
    [{ language := "python", code := "z" }]
    { language := "python", code := "# filename: /etc/passwd" }
    (by decide) (by decide) (by rfl)

/-- C8: a supported block whose resolved policy is execute=false is
persisted, a "Code saved to <path>" message is appended, the loop continues
(`cont`), no transport interaction happens, and the exit code is untouched;
a single-block batch of such a block returns exit code 0, the saved-file
message, and an empty transport log. -/
theorem C8_persist_only_skips_transport (ext : Externals) (cfg : ExecutorConfig)
    (b : CodeBlock) (s : BatchState)
    (h1 : supported b = true)
    (h2 : blockExecutes cfg b = false)
    (h3 : resolverOk ext cfg b = true) :
    stepBlock ext cfg b s = .cont
      { outputs := s.outputs ++ ["Code saved to " ++ blockPath ext cfg b ++ "\n"],
        files := s.files ++ [blockPath ext cfg b],
        writes := s.writes ++ [(blockPath ext cfg b, blockContent ext b)],
        transport := s.transport,
        last_exit_code := s.last_exit_code } ∧
    execute_code_blocks ext cfg [b] =
      .ok ({ exit_code := 0,
             output := "Code saved to " ++ blockPath ext cfg b ++ "\n",
             code_file := some (blockPath ext cfg b) },
           { outputs := ["Code saved to " ++ blockPath ext cfg b ++ "\n"],
             files := [blockPath ext cfg b],
             writes := [(blockPath ext cfg b, blockContent ext b)],
             transport := [],
             last_exit_code := 0 }) := by
  have hclean : clean ext cfg b = true := by rw [clean, h1, h3]; rfl
  have hmsg : blockMsg ext cfg b = "Code saved to " ++ blockPath ext cfg b ++ "\n" := by
    rw [blockMsg, h2]
    simp
  have htr : blockTransport ext cfg b = [] := by
    rw [blockTransport, h2]
    simp
  constructor
  · have hstep := stepBlock_clean ext cfg b s hclean
    rw [hmsg, htr] at hstep
    rw [hstep]
    simp
  · have hstep := stepBlock_clean ext cfg b initState hclean
    rw [hmsg, htr] at hstep
    simp only [execute_code_blocks]
    rw [if_neg (by simp), processBlocks_cons_cont ext cfg b [] initState _ hstep,
      processBlocks]
    simp [initState, String.join]

/-- C8 witness: a css block (default policy execute=false) under the
default configuration. -/
theorem C8_witness :
    stepBlock extWitness cfg60 { language := "css", code := "body" } initState = .cont
      { outputs := ["Code saved to wd/tmp_code_4.css\n"],
        files := ["wd/tmp_code_4.css"],
        writes := [("wd/tmp_code_4.css", "body")],
        transport := [],
        last_exit_code := 0 } ∧
    execute_code_blocks extWitness cfg60 [{ language := "css", code := "body" }] =
      .ok ({ exit_code := 0, output := "Code saved to wd/tmp_code_4.css\n",
             code_file := some "wd/tmp_code_4.css" },
           { outputs := ["Code saved to wd/tmp_code_4.css\n"],
             files := ["wd/tmp_code_4.css"],
             writes := [("wd/tmp_code_4.css", "body")],
             transport := [],
             last_exit_code := 0 }) := by
  exact C8_persist_only_skips_transport extWitness cfg60
    { language := "css", code := "body" } initState (by decide) (by decide) (by decide)

/-- C10: both the persisted content and the digest input of the fallback
filename are the `silence_pip`-normalized code, not the caller's original
text; two same-language blocks whose codes normalize identically get the
same fallback filename, and in a two-block batch the second block's write
lands on the same path, so the final content there is the second block's
normalized code. -/
theorem C10_hash_and_persistence_use_normalized_code (ext : Externals)
    (cfg : ExecutorConfig) (L c1 c2 : String)
    (hsup : supported { language := L, code := c1 } = true)
    (h1 : ext.get_file_name_from_content (ext.silence_pip c1 (canonical_lang L))
        cfg.work_dir = .ok none)
    (h2 : ext.get_file_name_from_content (ext.silence_pip c2 (canonical_lang L))
        cfg.work_dir = .ok none)
    (hnorm : ext.silence_pip c1 (canonical_lang L) = ext.silence_pip c2 (canonical_lang L)) :
    blockContent ext { language := L, code := c1 } = ext.silence_pip c1 (canonical_lang L) ∧
    blockFilename ext cfg { language := L, code := c1 } =
      fallback_filename ext (ext.silence_pip c1 (canonical_lang L)) (canonical_lang L) ∧
    blockFilename ext cfg { language := L, code := c1 } =
      blockFilename ext cfg { language := L, code := c2 } ∧
    (processBlocks ext cfg
        [{ language := L, code := c1 }, { language := L, code := c2 }] initState).writes =
      [(blockPath ext cfg { language := L, code := c1 }, ext.silence_pip c1 (canonical_lang L)),
       (blockPath ext cfg { language := L, code := c1 }, ext.silence_pip c2 (canonical_lang L))] ∧
    finalContents
        (processBlocks ext cfg
          [{ language := L, code := c1 }, { language := L, code := c2 }] initState).writes
        (blockPath ext cfg { language := L, code := c1 }) =
      some (ext.silence_pip c2 (canonical_lang L)) := by
  have hc1 : blockContent ext { language := L, code := c1 } =
      ext.silence_pip c1 (canonical_lang L) := rfl
  have hc2 : blockContent ext { language := L, code := c2 } =
      ext.silence_pip c2 (canonical_lang L) := rfl
  have hfn1 : blockFilename ext cfg { language := L, code := c1 } =
      fallback_filename ext (ext.silence_pip c1 (canonical_lang L)) (canonical_lang L) := by
    rw [blockFilename]
    simp only [hc1, h1]
  have hfn2 : blockFilename ext cfg { language := L, code := c2 } =
      fallback_filename ext (ext.silence_pip c2 (canonical_lang L)) (canonical_lang L) := by
    rw [blockFilename]
    simp only [hc2, h2]
  have hfneq : blockFilename ext cfg { language := L, code := c1 } =
      blockFilename ext cfg { language := L, code := c2 } := by
    rw [hfn1, hfn2, hnorm]
  have hpeq : blockPath ext cfg { language := L, code := c1 } =
      blockPath ext cfg { language := L, code := c2 } := by
    rw [blockPath, blockPath, hfneq]
  have hsup2 : supported { language := L, code := c2 } = true := hsup
  have hclean : ∀ x ∈ [({ language := L, code := c1 } : CodeBlock),
      { language := L, code := c2 }], clean ext cfg x = true := by
    intro x hx
    simp only [List.mem_cons, List.not_mem_nil, or_false] at hx
    rcases hx with rfl | rfl
    · rw [clean, hsup, resolverOk, hc1, h1]
      rfl
    · rw [clean, hsup2, resolverOk, hc2, h2]
      rfl
  have hrun : processBlocks ext cfg
      [{ language := L, code := c1 }, { language := L, code := c2 }] initState =
      accumClean ext cfg
        [{ language := L, code := c1 }, { language := L, code := c2 }] initState := by
    have := processBlocks_clean_pre ext cfg
      [{ language := L, code := c1 }, { language := L, code := c2 }] [] initState hclean
    simpa [processBlocks] using this
  have hwr : (processBlocks ext cfg
      [{ language := L, code := c1 }, { language := L, code := c2 }] initState).writes =
      [(blockPath ext cfg { language := L, code := c1 }, ext.silence_pip c1 (canonical_lang L)),
       (blockPath ext cfg { language := L, code := c1 }, ext.silence_pip c2 (canonical_lang L))] := by
    rw [hrun]
    simp [accumClean, initState, hc1, hc2, hpeq]
  refine ⟨hc1, hfn1, hfneq, hwr, ?_⟩
  rw [hwr, finalContents]
  simp

/-- C10 witness: two pip-install one-liners normalize to the same silenced
text, share the fallback filename derived from it, and the second write
lands on the same path. -/
theorem C10_witness :
    blockContent extWitness { language := "python", code := "pip install a" } =
      "# pip silenced" ∧
    blockFilename extWitness cfg60 { language := "python", code := "pip install a" } =
      "tmp_code_14.python" ∧
    blockFilename extWitness cfg60 { language := "python", code := "pip install a" } =
      blockFilename extWitness cfg60 { language := "python", code := "pip install b" } ∧
    (processBlocks extWitness cfg60
        [{ language := "python", code := "pip install a" },
         { language := "python", code := "pip install b" }] initState).writes =
      [("wd/tmp_code_14.python", "# pip silenced"),
       ("wd/tmp_code_14.python", "# pip silenced")] ∧
    finalContents
        (processBlocks extWitness cfg60
          [{ language := "python", code := "pip install a" },
           { language := "python", code := "pip install b" }] initState).writes
        "wd/tmp_code_14.python" = some "# pip silenced" := by
  exact C10_hash_and_persistence_use_normalized_code extWitness cfg60
    "python" "pip install a" "pip install b" (by decide) (by rfl) (by rfl) (by decide)

end VagrantExec
